import Mathlib

/-!
Product-recognition web client: the component of `src/App.jsx`.

A shallow embedding of the single React component of the repository.

* The canvas 2D context is a record of its style fields together with the
  list of drawing calls issued so far (oldest first).  Coordinates are exact
  rationals.
* JavaScript values coming from the backend are `JVal`; `none : Option JVal`
  stands for `undefined`.
* The component is a state record (the six `useState` cells, the refs, and the
  part of the browser the handlers touch: sockets, media streams, alerts,
  suspended `await`s) and each handler is a function on that record.  An
  `async` handler is cut at its `await`s: the part before, and the part that
  runs when the awaited promise settles.
* `JSON.parse` and `res.json()` are not embedded: an event carries the parsed
  value, or the fact that parsing failed.
* Left out: the overlay effect of lines 184-213 (it only paints, through
  `drawBoxes`), `captureAndPredict` (never called), `saveAllToDatabase` (it only
  alerts) and the unmount cleanup (no state is left after it).  The capture
  timer of lines 129-151 appears as its `toBlob` callback, which may run
  whenever the condition of line 141 holds.
-/

namespace App

/-! ## Canvas and `drawBoxes` (lines 6-17) -/

/-- One drawing call received by a 2D context. -/
inductive DrawCall where
  | clearRect (x y w h : ℚ)
  | strokeRect (x y w h : ℚ)
  | fillText (text : String) (x y : ℚ)

/-- The 2D context of a canvas: the size of its canvas, the style fields that
`drawBoxes` assigns, and the drawing calls issued so far, oldest first. -/
structure Ctx where
  canvasWidth : ℚ
  canvasHeight : ℚ
  strokeStyle : String
  lineWidth : ℚ
  font : String
  fillStyle : String
  calls : List DrawCall

/-- The call `ctx.clearRect(x, y, w, h)`. -/
def Ctx.clearRect (ctx : Ctx) (x y w h : ℚ) : Ctx :=
  { ctx with calls := ctx.calls ++ [DrawCall.clearRect x y w h] }

/-- The call `ctx.strokeRect(x, y, w, h)`. -/
def Ctx.strokeRect (ctx : Ctx) (x y w h : ℚ) : Ctx :=
  { ctx with calls := ctx.calls ++ [DrawCall.strokeRect x y w h] }

/-- The call `ctx.fillText(text, x, y)`. -/
def Ctx.fillText (ctx : Ctx) (text : String) (x y : ℚ) : Ctx :=
  { ctx with calls := ctx.calls ++ [DrawCall.fillText text x y] }

/-- A prediction `{ class, confidence, bbox: [x1, y1, x2, y2] }`; the field
`class` is spelled `cls`. -/
structure Prediction where
  cls : String
  confidence : ℚ
  bbox : ℚ × ℚ × ℚ × ℚ

/-- The body of the `forEach` callback of `drawBoxes` (lines 9-15). -/
def drawBox (scaleX scaleY : ℚ) (ctx : Ctx) (pred : Prediction) : Ctx :=
  match pred.bbox with
  | (x1, y1, x2, y2) =>
    let ctx := { ctx with strokeStyle := "#00FF00" }
    let ctx := { ctx with lineWidth := 2 }
    let ctx := ctx.strokeRect (x1 * scaleX) (y1 * scaleY) ((x2 - x1) * scaleX) ((y2 - y1) * scaleY)
    let ctx := { ctx with font := "16px Arial" }
    let ctx := { ctx with fillStyle := "#00FF00" }
    ctx.fillText pred.cls (x1 * scaleX)
      (if y1 * scaleY > 20 then y1 * scaleY - 5 else y1 * scaleY + 20)

/-- The function `drawBoxes(ctx, predictions, scaleX, scaleY)` (lines 6-17); the
source defaults both scale factors to 1. -/
def drawBoxes (ctx : Ctx) (predictions : List Prediction) (scaleX scaleY : ℚ) : Ctx :=
  predictions.foldl (drawBox scaleX scaleY)
    (ctx.clearRect 0 0 ctx.canvasWidth ctx.canvasHeight)

/-- The scaled rectangle of one prediction. -/
def boxOf (scaleX scaleY : ℚ) (pred : Prediction) : DrawCall :=
  DrawCall.strokeRect (pred.bbox.1 * scaleX) (pred.bbox.2.1 * scaleY)
    ((pred.bbox.2.2.1 - pred.bbox.1) * scaleX) ((pred.bbox.2.2.2 - pred.bbox.2.1) * scaleY)

/-- The label of one prediction: its class, above the box or inside its top edge. -/
def labelOf (scaleX scaleY : ℚ) (pred : Prediction) : DrawCall :=
  DrawCall.fillText pred.cls (pred.bbox.1 * scaleX)
    (if pred.bbox.2.1 * scaleY > 20 then pred.bbox.2.1 * scaleY - 5
     else pred.bbox.2.1 * scaleY + 20)

/-- The context of a canvas element just created: 400 by 300 (the `width` and
`height` attributes in the markup), browser default styles, nothing drawn. -/
def freshCtx : Ctx :=
  { canvasWidth := 400, canvasHeight := 300, strokeStyle := "#000000", lineWidth := 1,
    font := "10px sans-serif", fillStyle := "#000000", calls := [] }

/-! ## JavaScript values received from the backend -/

/-- A value produced by `JSON.parse` / `res.json()`.  An object is the list of
its own properties, each key once. -/
inductive JVal where
  | null
  | bool (b : Bool)
  | num (q : ℚ)
  | str (s : String)
  | arr (items : List JVal)
  | obj (fields : List (String × JVal))

/-- JavaScript truthiness of a JSON value: `null`, `false`, `0` and `""` are
falsy, everything else (every array and object included) is truthy. -/
def JVal.truthy : JVal → Bool
  | .null => false
  | .bool b => b
  | .num q => decide (q ≠ 0)
  | .str s => decide (s ≠ "")
  | .arr _ => true
  | .obj _ => true

/-- `Array.isArray(v)`. -/
def JVal.isArray : JVal → Bool
  | .arr _ => true
  | _ => false

/-- The property read `data.predictions`.  The outer `none` is the `TypeError`
thrown when `data` is `null`; `some none` is the result `undefined` (no such
property, or `data` is a number, boolean, string or array). -/
def JVal.getPredictions : JVal → Option (Option JVal)
  | .null => none
  | .obj fields => some (fields.lookup "predictions")
  | _ => some none

/-- The expression `v || []` for `v` the result of a property read. -/
def orEmpty : Option JVal → JVal
  | some v => if v.truthy then v else JVal.arr []
  | none => JVal.arr []

/-! ## Component state -/

/-- The `<video>` element: `srcObject` is `none` or the index of a stream in
`State.streams`. -/
structure Video where
  srcObject : Option Nat

/-- A WebSocket created by the component: `readyState` is 0 (CONNECTING),
1 (OPEN), 2 (CLOSING) or 3 (CLOSED); `sent` counts the frames sent on it. -/
structure Socket where
  readyState : Nat
  sent : Nat

/-- The component: the `useState` cells, the refs (`none` is a ref whose
`current` is null/undefined), and the browser objects the handlers act on.
A media stream is the list of its tracks, `true` for a live track.  `image` is
`none` for `null`, otherwise an object or data URL (never the empty string).
The three `awaiting` counters count the calls suspended at
`await getUserMedia(..)`, at `await fetch(image)` / `await response.blob()`,
and at `await fetch(API_URL)` / `await res.json()`. -/
structure State where
  image : Option String
  predictions : JVal
  loading : Bool
  useWebcam : Bool
  wsActive : Bool
  predicting : Bool
  videoRef : Option Video
  canvasRef : Option Ctx
  wsRef : Option Nat
  mediaDevices : Bool
  sockets : List Socket
  streams : List (List Bool)
  alerts : List String
  awaitingCamera : Nat
  awaitingImage : Nat
  awaitingBackend : Nat

/-- The state at first render; `mediaDevices` says whether
`navigator.mediaDevices && navigator.mediaDevices.getUserMedia` is truthy. -/
def init (mediaDevices : Bool) : State :=
  { image := none, predictions := JVal.arr [], loading := false, useWebcam := false,
    wsActive := false, predicting := false, videoRef := none, canvasRef := none,
    wsRef := none, mediaDevices := mediaDevices, sockets := [], streams := [],
    alerts := [], awaitingCamera := 0, awaitingImage := 0, awaitingBackend := 0 }

/-- Replace the element at index `i` by its image under `f`. -/
def modifyAt {α : Type} (f : α → α) : Nat → List α → List α
  | _, [] => []
  | 0, x :: xs => f x :: xs
  | i + 1, x :: xs => x :: modifyAt f i xs

/-- The `readyState` of socket `i`, if there is such a socket. -/
def readyStateOf (s : State) (i : Nat) : Option Nat :=
  (s.sockets.get? i).map Socket.readyState

/-- The number of live tracks of one stream. -/
def liveIn (stream : List Bool) : Nat := stream.count true

/-- The number of live media tracks over all streams acquired so far. -/
def activeTracks (s : State) : Nat := (s.streams.map liveIn).sum

/-- The number of live tracks of the stream attached to the mounted video
element (0 when there is no element or no attached stream). -/
def attachedTracks (s : State) : Nat :=
  match s.videoRef with
  | some v =>
    match v.srcObject with
    | some j => ((s.streams.get? j).map liveIn).getD 0
    | none => 0
  | none => 0

/-- The method `socket.close()`: a connecting or open socket starts closing. -/
def Socket.close (k : Socket) : Socket :=
  if k.readyState < 2 then { k with readyState := 2 } else k

/-- The loop `tracks.forEach(track => track.stop())`. -/
def stopTracks (stream : List Bool) : List Bool := stream.map (fun _ => false)

/-! ## Handlers -/

/-- The handler `handleImageUpload` (lines 32-39); `file` is `e.target.files[0]`,
given by the object URL `URL.createObjectURL` returns for it. -/
def handleImageUpload (file : Option String) (s : State) : State :=
  match file with
  | none => s
  | some imgURL =>
    { s with image := some imgURL, useWebcam := false, predictions := JVal.arr [] }

/-- What `await fetch(API_URL, ..)` followed by `await res.json()` yields: a
rejected `fetch`, a body that is not JSON, or the parsed body. -/
inductive FetchResult where
  | transportError
  | parseError
  | body (data : JVal)

/-- The call `alert(msg)`. -/
def alert (msg : String) (s : State) : State :=
  { s with alerts := s.alerts ++ [msg] }

/-- The part of `sendToBackend` before its first `await` (lines 43-47). -/
def sendToBackendBegin (s : State) : State :=
  { s with loading := true, awaitingBackend := s.awaitingBackend + 1 }

/-- The part of `sendToBackend` from the settling of the request on
(lines 47-56), on the state the component is in at that moment. -/
def sendToBackendResume (r : FetchResult) (s : State) : State :=
  let s :=
    match r with
    | .body data =>
      match data.getPredictions with
      | some field => { s with predictions := orEmpty field }
      | none => alert "Prediction failed." s
    | _ => alert "Prediction failed." s
  { s with loading := false }

/-- The function `sendToBackend` run with no other event while it waits. -/
def sendToBackend (r : FetchResult) (s : State) : State :=
  sendToBackendResume r (sendToBackendBegin s)

/-- The condition of line 73: `!wsRef.current || wsRef.current.readyState !== 1`. -/
def needsChannel (s : State) : Bool :=
  match s.wsRef with
  | none => true
  | some i => readyStateOf s i != some 1

/-- The block of `startWebcam` that opens the channel (lines 73-93); the four
handlers it installs are `onopen`, `onmessage`, `onerror`, `onclose` below. -/
def openChannel (s : State) : State :=
  if needsChannel s then
    { s with sockets := s.sockets ++ [{ readyState := 0, sent := 0 }],
             wsRef := some s.sockets.length }
  else s

/-- The part of `startWebcam` up to `await getUserMedia(..)` (lines 61-66), or
the whole function when the media API is missing (then nothing is awaited). -/
def startWebcamBegin (s : State) : State :=
  let s := { s with useWebcam := true, image := none, predictions := JVal.arr [] }
  if s.mediaDevices then { s with awaitingCamera := s.awaitingCamera + 1 }
  else openChannel s

/-- The part of `startWebcam` after `getUserMedia` resolves with a stream of
`tracks` live tracks (lines 66-93). -/
def startWebcamGranted (tracks : Nat) (s : State) : State :=
  let stream := s.streams.length
  let s := { s with streams := s.streams ++ [List.replicate tracks true] }
  let s :=
    match s.videoRef with
    | some _ => { s with videoRef := some { srcObject := some stream } }
    | none => s
  openChannel s

/-- The handler `socket.onopen`. -/
def onopen (s : State) : State := { s with wsActive := true }

/-- The handler `socket.onmessage`; `parsed` is the result of
`JSON.parse(event.data)`, `none` when it throws. -/
def onmessage (parsed : Option JVal) (s : State) : State :=
  match parsed with
  | none => s
  | some data =>
    match data.getPredictions with
    | none => s
    | some none => s
    | some (some v) => if v.truthy then { s with predictions := v } else s

/-- The handler `socket.onerror`. -/
def onerror (s : State) : State := { s with wsActive := false, wsRef := none }

/-- The handler `socket.onclose`. -/
def onclose (s : State) : State := { s with wsActive := false, wsRef := none }

/-- The block closing the channel (lines 102-105, and 156-159 at unmount). -/
def closeChannel (s : State) : State :=
  match s.wsRef with
  | some i => { s with sockets := modifyAt Socket.close i s.sockets, wsRef := none }
  | none => s

/-- The block releasing the camera (lines 106-110, and 160-164 at unmount). -/
def releaseCamera (s : State) : State :=
  match s.videoRef with
  | some v =>
    match v.srcObject with
    | some j => { s with streams := modifyAt stopTracks j s.streams,
                         videoRef := some { srcObject := none } }
    | none => s
  | none => s

/-- The block clearing the overlay canvas (lines 112-115). -/
def clearCanvas (s : State) : State :=
  match s.canvasRef with
  | some ctx =>
    { s with canvasRef := some (ctx.clearRect 0 0 ctx.canvasWidth ctx.canvasHeight) }
  | none => s

/-- The handler `stopWebcam` (lines 97-116). -/
def stopWebcam (s : State) : State :=
  let s := { s with useWebcam := false, predicting := false,
                    predictions := JVal.arr [], image := none }
  clearCanvas (releaseCamera (closeChannel s))

/-- The part of `predictImage` up to `await fetch(image)` (lines 119-121). -/
def predictImage (s : State) : State :=
  if s.image.isSome && !s.useWebcam then
    { s with loading := true, awaitingImage := s.awaitingImage + 1 }
  else s

/-- The function `predictImage` once `fetch(image)` and `response.blob()` have
settled: with a blob it calls `sendToBackend`; a rejection ends the call. -/
def predictImageFetched (ok : Bool) (s : State) : State :=
  if ok then sendToBackendBegin s else s

/-- The rest of `predictImage`: `sendToBackend` resumes and returns, then
`setLoading(false)` (lines 123-124). -/
def predictImageResume (r : FetchResult) (s : State) : State :=
  { sendToBackendResume r s with loading := false }

/-- The `disabled` attribute of the predict button (line 271). -/
def predictDisabled (s : State) : Bool :=
  (!s.useWebcam && !s.image.isSome) || (s.useWebcam && !s.wsActive)

/-- The `onClick` of the predict button (lines 264-270); a disabled button
delivers no click. -/
def clickPredict (s : State) : State :=
  if predictDisabled s then s
  else if s.useWebcam then { s with predicting := !s.predicting }
  else predictImage s

/-- The `toBlob` callback of the capture timer (lines 140-145): `blob` says
whether a blob was produced, `dataURL` is `canvas.toDataURL()`. -/
def frameEncoded (blob : Bool) (dataURL : String) (s : State) : State :=
  match s.wsRef with
  | some i =>
    if blob && readyStateOf s i == some 1 then
      { s with sockets := modifyAt (fun k => { k with sent := k.sent + 1 }) i s.sockets,
               image := some dataURL }
    else s
  | none => s

/-- The refs after React commits a render of the current state (lines 301-334):
the video element exists exactly in webcam mode, the canvas exactly when there
is a webcam or an image; an element mounted anew is fresh. -/
def commitRefs (s : State) : State :=
  { s with
    videoRef :=
      if s.useWebcam then
        match s.videoRef with
        | some v => some v
        | none => some { srcObject := none }
      else none
    canvasRef :=
      if s.useWebcam || s.image.isSome then
        match s.canvasRef with
        | some c => some c
        | none => some freshCtx
      else none }

/-! ## Events -/

/-- What can happen to the mounted component: the user's actions and the
browser's callbacks. -/
inductive Event where
  | upload (file : Option String)
  | clickWebcam
  | clickPredict
  | cameraGranted (tracks : Nat)
  | cameraDenied
  | imageFetched (ok : Bool)
  | backendResponse (r : FetchResult)
  | wsOpen (i : Nat)
  | wsMessage (i : Nat) (parsed : Option JVal)
  | wsError (i : Nat)
  | wsClose (i : Nat)
  | frameEncoded (blob : Bool) (dataURL : String)

/-- Set the `readyState` of socket `i`. -/
def setReadyState (i r : Nat) (s : State) : State :=
  { s with sockets := modifyAt (fun k => { k with readyState := r }) i s.sockets }

/-- A call suspended at `await getUserMedia(..)` is resumed or rejected. -/
def settleCamera (s : State) : State := { s with awaitingCamera := s.awaitingCamera - 1 }

/-- A call suspended at `await fetch(image)` is resumed or rejected. -/
def settleImage (s : State) : State := { s with awaitingImage := s.awaitingImage - 1 }

/-- A call suspended at `await fetch(API_URL, ..)` is resumed. -/
def settleBackend (s : State) : State := { s with awaitingBackend := s.awaitingBackend - 1 }

/-- Whether socket `i` exists and is not yet closed. -/
def alive (s : State) (i : Nat) : Bool :=
  readyStateOf s i == some 0 || readyStateOf s i == some 1 || readyStateOf s i == some 2

/-- The handler code run by one event.  The webcam button is "Start Webcam"
when `useWebcam` is false and "Stop Webcam" otherwise (lines 254-262).  A
browser callback that has nothing to call back (no suspended call, a socket in
the wrong state) changes nothing.  A rejected `getUserMedia` ends the call of
`startWebcam`.  An error event is followed by the close event of the same
socket. -/
def handle : Event → State → State
  | .upload file, s => handleImageUpload file s
  | .clickWebcam, s => if s.useWebcam then stopWebcam s else startWebcamBegin s
  | .clickPredict, s => clickPredict s
  | .cameraGranted tracks, s =>
    if s.awaitingCamera = 0 then s else startWebcamGranted tracks (settleCamera s)
  | .cameraDenied, s =>
    if s.awaitingCamera = 0 then s else settleCamera s
  | .imageFetched ok, s =>
    if s.awaitingImage = 0 then s else predictImageFetched ok (settleImage s)
  | .backendResponse r, s =>
    if s.awaitingBackend = 0 then s else predictImageResume r (settleBackend s)
  | .wsOpen i, s =>
    if readyStateOf s i = some 0 then onopen (setReadyState i 1 s) else s
  | .wsMessage i parsed, s =>
    if readyStateOf s i = some 1 then onmessage parsed s else s
  | .wsError i, s =>
    if alive s i then onclose (onerror (setReadyState i 3 s)) else s
  | .wsClose i, s =>
    if alive s i then onclose (setReadyState i 3 s) else s
  | .frameEncoded blob dataURL, s => frameEncoded blob dataURL s

/-- One event: its handler code, then the render React commits. -/
def step (e : Event) (s : State) : State := commitRefs (handle e s)

/-- A sequence of events, first to last. -/
def run (es : List Event) (s : State) : State := es.foldl (fun s e => step e s) s

/-- A state the component can be in. -/
def Reachable (s : State) : Prop := ∃ mediaDevices es, s = run es (init mediaDevices)

/-- The function `startWebcam` run to its end with no other event while it
waits for the camera: `camera` is `some tracks` when `getUserMedia` resolves
and `none` when it rejects (it is not consulted without the media API). -/
def startWebcam (camera : Option Nat) (s : State) : State :=
  let s1 := commitRefs (startWebcamBegin s)
  if s.mediaDevices then
    match camera with
    | some tracks => step (.cameraGranted tracks) s1
    | none => step .cameraDenied s1
  else s1

/-- Whether the event delivers a backend answer (a one-shot response or a
channel message). -/
def Event.isAnswer : Event → Bool
  | .backendResponse _ => true
  | .wsMessage _ _ => true
  | _ => false

/-- A value the `predictions` state can safely take out of a property read:
nothing, a falsy value, or an array. -/
def fieldListLike : Option JVal → Bool
  | none => true
  | some v => v.isArray || !v.truthy

/-! ## States and answers used as examples -/

/-- Webcam mode in normal operation: started, camera granted, channel open. -/
def webcamRunning : State := run [.clickWebcam, .cameraGranted 1, .wsOpen 0] (init true)

/-- The parsed body an event delivers to the component, if it delivers one. -/
def Event.payload : Event → Option JVal
  | .backendResponse (.body data) => some data
  | .wsMessage _ (some data) => some data
  | _ => none

/-- One detection as the backend reports it. -/
def cup : JVal :=
  JVal.obj [("class", JVal.str "cup"), ("confidence", JVal.num (9 / 10)),
    ("bbox", JVal.arr [JVal.num 10, JVal.num 10, JVal.num 50, JVal.num 50])]

/-- The backend answer `{"predictions": [cup]}`. -/
def cupAnswer : JVal := JVal.obj [("predictions", JVal.arr [cup])]

/-- Webcam mode with continuous prediction on and one frame sent, then an
image chosen in the file dialog. -/
def uploadedWhileStreaming : State :=
  run [.clickWebcam, .cameraGranted 1, .wsOpen 0, .clickPredict,
       .frameEncoded true "data:frame", .upload (some "blob:photo")] (init true)

/-- Start invoked twice in a row from the first render, camera granted both
times, the channel not yet open at the second call. -/
def startedTwice : State := startWebcam (some 1) (startWebcam (some 1) (init true))

/-- The same through the buttons: start, choose an image while the channel is
still connecting (the button reads "Start Webcam" again), start. -/
def restartedWhileConnecting : State :=
  run [.clickWebcam, .cameraGranted 1, .upload (some "blob:photo"), .clickWebcam,
       .cameraGranted 1] (init true)

/-- Webcam stopped and started again before the close event of the first
channel has been delivered. -/
def restartedBeforeClose : State :=
  run [.clickWebcam, .cameraGranted 1, .wsOpen 0, .clickWebcam, .clickWebcam] (init true)

/-- Some channel created by the component is open or closing. -/
def SomeChannelUp (s : State) : Prop :=
  ∃ k ∈ s.sockets, k.readyState = 1 ∨ k.readyState = 2

/-- What the code maintains about the channel: the readiness flag is set only
while some channel is open or closing, and a non-null channel reference refers
to a connecting or open channel. -/
def ChannelInv (s : State) : Prop :=
  (s.wsActive = true → SomeChannelUp s)
    ∧ ∀ i, s.wsRef = some i → readyStateOf s i = some 0 ∨ readyStateOf s i = some 1

/-- After `restartedWhileConnecting`, the first channel opens while the
reference already points at the second. -/
def firstOpensAfterRestart : State := step (.wsOpen 0) restartedWhileConnecting

/-- The backend answer `{"predictions": null}`. -/
def nullAnswer : JVal := JVal.obj [("predictions", JVal.null)]

/-- The backend answer `{"predictions": "x"}`. -/
def textAnswer : JVal := JVal.obj [("predictions", JVal.str "x")]

/-- A photo was uploaded and predicted: the overlay shows one detection. -/
def predictedCup : State :=
  run [.upload (some "blob:photo"), .clickPredict, .imageFetched true,
       .backendResponse (.body cupAnswer)] (init true)

/-- The webcam streams and the answer to its first frame has arrived. -/
def streamingCup : State :=
  run [.clickWebcam, .cameraGranted 1, .wsOpen 0, .clickPredict,
       .frameEncoded true "data:frame", .wsMessage 0 (some cupAnswer)] (init true)

/-- The running webcam loses its channel, is stopped and started again, and
this time the camera request is rejected. -/
def deniedAfterClose : State :=
  run [.clickWebcam, .cameraGranted 1, .wsOpen 0, .wsClose 0, .clickWebcam, .clickWebcam,
       .cameraDenied] (init true)

/-- A prediction is requested for photo A and, while the request is in flight,
photo B is chosen. -/
def photoChanged : State :=
  run [.upload (some "blob:photoA"), .clickPredict, .imageFetched true,
       .upload (some "blob:photoB")] (init true)

/-- The webcam is stopped and started again; the close event of the first
channel arrives after the second channel was created, then the second opens. -/
def stuckAfterRestart : State :=
  run [.clickWebcam, .cameraGranted 1, .wsOpen 0, .clickWebcam, .clickWebcam,
       .cameraGranted 1, .wsClose 0, .wsOpen 1] (init true)

/-- The webcam is stopped while its camera request is still pending, and the
request is granted afterwards. -/
def stoppedWhilePending : State :=
  run [.clickWebcam, .clickWebcam, .cameraGranted 1] (init true)


/-! ## Overlay drawing -/

theorem drawBox_calls (scaleX scaleY : ℚ) (ctx : Ctx) (pred : Prediction) :
    (drawBox scaleX scaleY ctx pred).calls
      = ctx.calls ++ [boxOf scaleX scaleY pred, labelOf scaleX scaleY pred] := by
  obtain ⟨cls, conf, x1, y1, x2, y2⟩ := pred
  simp [drawBox, Ctx.strokeRect, Ctx.fillText, boxOf, labelOf]

theorem foldl_drawBox_calls (scaleX scaleY : ℚ) (predictions : List Prediction) (ctx : Ctx) :
    (predictions.foldl (drawBox scaleX scaleY) ctx).calls
      = ctx.calls ++ predictions.flatMap
          (fun pred => [boxOf scaleX scaleY pred, labelOf scaleX scaleY pred]) := by
  induction predictions generalizing ctx with
  | nil => simp
  | cons pred rest ih =>
    rw [List.foldl_cons, ih, drawBox_calls]
    simp [List.flatMap_cons]

/-- C1: on a fresh context `drawBoxes` issues one `clearRect` of the whole
canvas and then, per prediction in list order, one rectangle at
`(x1*scaleX, y1*scaleY)` of size `((x2-x1)*scaleX, (y2-y1)*scaleY)` followed by
one label with the class text at `x1*scaleX`, at `y1*scaleY - 5` when
`y1*scaleY > 20` and at `y1*scaleY + 20` otherwise; on any context these calls
are appended to the earlier ones. -/
theorem drawBoxes_calls (ctx : Ctx) (predictions : List Prediction) (scaleX scaleY : ℚ) :
    (drawBoxes ctx predictions scaleX scaleY).calls
      = ctx.calls ++ DrawCall.clearRect 0 0 ctx.canvasWidth ctx.canvasHeight ::
          predictions.flatMap (fun pred =>
            [DrawCall.strokeRect (pred.bbox.1 * scaleX) (pred.bbox.2.1 * scaleY)
               ((pred.bbox.2.2.1 - pred.bbox.1) * scaleX)
               ((pred.bbox.2.2.2 - pred.bbox.2.1) * scaleY),
             DrawCall.fillText pred.cls (pred.bbox.1 * scaleX)
               (if pred.bbox.2.1 * scaleY > 20 then pred.bbox.2.1 * scaleY - 5
                else pred.bbox.2.1 * scaleY + 20)]) := by
  unfold drawBoxes
  rw [foldl_drawBox_calls]
  simp [Ctx.clearRect, boxOf, labelOf]

/-! ## Stopping the webcam -/

theorem liveIn_stopTracks (stream : List Bool) : liveIn (stopTracks stream) = 0 := by
  induction stream with
  | nil => rfl
  | cons b rest ih => simpa [liveIn, stopTracks] using ih

theorem sum_liveIn_modifyAt (streams : List (List Bool)) (j : Nat) :
    ((modifyAt stopTracks j streams).map liveIn).sum + ((streams.get? j).map liveIn).getD 0
      = (streams.map liveIn).sum := by
  induction streams generalizing j with
  | nil => cases j <;> simp [modifyAt]
  | cons st rest ih =>
    cases j with
    | zero => simp [modifyAt, liveIn_stopTracks]; omega
    | succ j =>
      have := ih j
      simp [modifyAt] at this ⊢
      omega

@[simp] theorem clearCanvas_streams (s : State) : (clearCanvas s).streams = s.streams := by
  unfold clearCanvas; cases s.canvasRef <;> rfl

@[simp] theorem clearCanvas_wsRef (s : State) : (clearCanvas s).wsRef = s.wsRef := by
  unfold clearCanvas; cases s.canvasRef <;> rfl

@[simp] theorem clearCanvas_sockets (s : State) : (clearCanvas s).sockets = s.sockets := by
  unfold clearCanvas; cases s.canvasRef <;> rfl

@[simp] theorem clearCanvas_flags (s : State) :
    (clearCanvas s).useWebcam = s.useWebcam ∧ (clearCanvas s).predicting = s.predicting
      ∧ (clearCanvas s).image = s.image ∧ (clearCanvas s).predictions = s.predictions
      ∧ (clearCanvas s).wsActive = s.wsActive := by
  unfold clearCanvas; cases s.canvasRef <;> simp

@[simp] theorem releaseCamera_wsRef (s : State) : (releaseCamera s).wsRef = s.wsRef := by
  unfold releaseCamera
  cases s.videoRef with
  | none => rfl
  | some v => obtain ⟨src⟩ := v; cases src <;> rfl

@[simp] theorem releaseCamera_sockets (s : State) : (releaseCamera s).sockets = s.sockets := by
  unfold releaseCamera
  cases s.videoRef with
  | none => rfl
  | some v => obtain ⟨src⟩ := v; cases src <;> rfl

@[simp] theorem releaseCamera_flags (s : State) :
    (releaseCamera s).useWebcam = s.useWebcam ∧ (releaseCamera s).predicting = s.predicting
      ∧ (releaseCamera s).image = s.image ∧ (releaseCamera s).predictions = s.predictions
      ∧ (releaseCamera s).wsActive = s.wsActive := by
  unfold releaseCamera
  cases s.videoRef with
  | none => simp
  | some v => obtain ⟨src⟩ := v; cases src <;> simp

theorem releaseCamera_activeTracks (s : State) :
    activeTracks (releaseCamera s) + attachedTracks s = activeTracks s := by
  unfold releaseCamera attachedTracks activeTracks
  cases s.videoRef with
  | none => simp
  | some v =>
    obtain ⟨src⟩ := v
    cases src with
    | none => simp
    | some j => simpa using sum_liveIn_modifyAt s.streams j

@[simp] theorem closeChannel_wsRef (s : State) : (closeChannel s).wsRef = none := by
  unfold closeChannel
  cases h : s.wsRef <;> simp [h]

@[simp] theorem closeChannel_streams (s : State) : (closeChannel s).streams = s.streams := by
  unfold closeChannel; cases s.wsRef <;> rfl

@[simp] theorem closeChannel_videoRef (s : State) : (closeChannel s).videoRef = s.videoRef := by
  unfold closeChannel; cases s.wsRef <;> rfl

@[simp] theorem closeChannel_flags (s : State) :
    (closeChannel s).useWebcam = s.useWebcam ∧ (closeChannel s).predicting = s.predicting
      ∧ (closeChannel s).image = s.image ∧ (closeChannel s).predictions = s.predictions
      ∧ (closeChannel s).wsActive = s.wsActive := by
  unfold closeChannel; cases s.wsRef <;> simp

theorem get?_modifyAt {α : Type} (f : α → α) (xs : List α) (i j : Nat) :
    (modifyAt f j xs).get? i = if i = j then (xs.get? i).map f else xs.get? i := by
  induction xs generalizing i j with
  | nil => cases j <;> simp [modifyAt]
  | cons x rest ih =>
    cases j with
    | zero => cases i <;> simp [modifyAt]
    | succ j =>
      cases i with
      | zero => simp [modifyAt]
      | succ i => simpa [modifyAt] using ih i j

theorem length_modifyAt {α : Type} (f : α → α) (xs : List α) (j : Nat) :
    (modifyAt f j xs).length = xs.length := by
  induction xs generalizing j with
  | nil => cases j <;> simp [modifyAt]
  | cons x rest ih => cases j <;> simp [modifyAt, ih]

theorem closeChannel_readyState (s : State) (i : Nat) (h : s.wsRef = some i) :
    readyStateOf (closeChannel s) i ≠ some 0 ∧ readyStateOf (closeChannel s) i ≠ some 1 := by
  unfold closeChannel readyStateOf
  simp only [h, get?_modifyAt, if_true]
  cases hk : s.sockets.get? i with
  | none => simp
  | some k =>
    simp only [Option.map_some', Socket.close]
    split
    · simp
    · simp; omega

theorem teardown_activeTracks (t : State) (h : activeTracks t = attachedTracks t) :
    activeTracks (clearCanvas (releaseCamera (closeChannel t))) = 0 := by
  have h1 := releaseCamera_activeTracks (closeChannel t)
  have h2 : attachedTracks (closeChannel t) = attachedTracks t := by simp [attachedTracks]
  have h3 : activeTracks (closeChannel t) = activeTracks t := by simp [activeTracks]
  have h4 : activeTracks (clearCanvas (releaseCamera (closeChannel t)))
      = activeTracks (releaseCamera (closeChannel t)) := by simp [activeTracks]
  omega

theorem teardown_readyState (t : State) (i : Nat) (h : t.wsRef = some i) :
    readyStateOf (clearCanvas (releaseCamera (closeChannel t))) i ≠ some 0
      ∧ readyStateOf (clearCanvas (releaseCamera (closeChannel t))) i ≠ some 1 := by
  simpa [readyStateOf] using closeChannel_readyState t i h

/-- What `stopWebcam` does achieve: in every state, after it the channel
reference is null, the channel it referred to is neither connecting nor open,
and `useWebcam = false`, `predicting = false`, `image = null`,
`predictions = []`; no media track is live when the live tracks before the
call were exactly those of the stream attached to the mounted video element. -/
theorem stopWebcam_spec (s : State) :
    (activeTracks s = attachedTracks s → activeTracks (stopWebcam s) = 0)
      ∧ (stopWebcam s).wsRef = none
      ∧ (∀ i, s.wsRef = some i →
          readyStateOf (stopWebcam s) i ≠ some 0 ∧ readyStateOf (stopWebcam s) i ≠ some 1)
      ∧ (stopWebcam s).useWebcam = false
      ∧ (stopWebcam s).predicting = false
      ∧ (stopWebcam s).image = none
      ∧ (stopWebcam s).predictions = JVal.arr [] := by
  refine ⟨?_, ?_, ?_, ?_, ?_, ?_, ?_⟩
  · intro h
    apply teardown_activeTracks
    simpa [activeTracks, attachedTracks] using h
  · simp [stopWebcam]
  · intro i hi
    apply teardown_readyState
    simpa using hi
  · simp [stopWebcam]
  · simp [stopWebcam]
  · simp [stopWebcam]
  · simp [stopWebcam]

theorem stopWebcam_spec_witness :
    activeTracks webcamRunning = 1
      ∧ activeTracks webcamRunning = attachedTracks webcamRunning
      ∧ activeTracks (stopWebcam webcamRunning) = 0 :=
  ⟨by decide, by decide, (stopWebcam_spec webcamRunning).1 (by decide)⟩

/-- C2 (the code at the failing input): the webcam is started, an image is
chosen (the video element goes away, its stream stays live), the webcam is
started again and a second stream is attached to the new video element;
`stopWebcam` then stops the second stream only and one track is still live.
Likewise when the webcam is stopped while the camera request is pending: the
stream granted afterwards is attached nowhere, and after a further start and
stop its track is still live. -/
theorem stopWebcam_leaves_live_track :
    restartedWhileConnecting.useWebcam = true
      ∧ activeTracks restartedWhileConnecting = 2
      ∧ attachedTracks restartedWhileConnecting = 1
      ∧ activeTracks (stopWebcam restartedWhileConnecting) = 1
      ∧ activeTracks (step Event.clickWebcam restartedWhileConnecting) = 1
      ∧ activeTracks (stopWebcam restartedWhileConnecting) ≠ 0
      ∧ stoppedWhilePending.useWebcam = false
      ∧ activeTracks stoppedWhilePending = 1
      ∧ (run [Event.clickWebcam, Event.cameraGranted 1] stoppedWhilePending).useWebcam = true
      ∧ activeTracks (stopWebcam
          (run [Event.clickWebcam, Event.cameraGranted 1] stoppedWhilePending)) = 1 := by
  decide

/-! ## The `predictions` state under each event -/

@[simp] theorem commitRefs_predictions (s : State) :
    (commitRefs s).predictions = s.predictions := rfl

@[simp] theorem commitRefs_wsActive (s : State) : (commitRefs s).wsActive = s.wsActive := rfl

@[simp] theorem commitRefs_wsRef (s : State) : (commitRefs s).wsRef = s.wsRef := rfl

@[simp] theorem commitRefs_sockets (s : State) : (commitRefs s).sockets = s.sockets := rfl

@[simp] theorem commitRefs_streams (s : State) : (commitRefs s).streams = s.streams := rfl

@[simp] theorem commitRefs_useWebcam (s : State) : (commitRefs s).useWebcam = s.useWebcam := rfl

@[simp] theorem commitRefs_image (s : State) : (commitRefs s).image = s.image := rfl

@[simp] theorem commitRefs_mediaDevices (s : State) :
    (commitRefs s).mediaDevices = s.mediaDevices := rfl

@[simp] theorem commitRefs_awaitingCamera (s : State) :
    (commitRefs s).awaitingCamera = s.awaitingCamera := rfl

@[simp] theorem openChannel_predictions (s : State) :
    (openChannel s).predictions = s.predictions := by
  unfold openChannel
  split <;> rfl

theorem onmessage_predictions (parsed : Option JVal) (s : State) :
    (onmessage parsed s).predictions = s.predictions
      ∨ ∃ data v, parsed = some data ∧ data.getPredictions = some (some v)
          ∧ v.truthy = true ∧ (onmessage parsed s).predictions = v := by
  cases parsed with
  | none => exact Or.inl rfl
  | some data =>
    cases hg : data.getPredictions with
    | none => left; simp [onmessage, hg]
    | some field =>
      cases field with
      | none => left; simp [onmessage, hg]
      | some v =>
        cases ht : v.truthy with
        | false => left; simp [onmessage, hg, ht]
        | true => right; exact ⟨data, v, rfl, hg, ht, by simp [onmessage, hg, ht]⟩

theorem sendToBackendResume_predictions (r : FetchResult) (s : State) :
    (sendToBackendResume r s).predictions = s.predictions
      ∨ (sendToBackendResume r s).predictions = JVal.arr []
      ∨ ∃ data v, r = FetchResult.body data ∧ data.getPredictions = some (some v)
          ∧ v.truthy = true ∧ (sendToBackendResume r s).predictions = v := by
  cases r with
  | transportError => exact Or.inl rfl
  | parseError => exact Or.inl rfl
  | body data =>
    cases hg : data.getPredictions with
    | none => left; simp [sendToBackendResume, hg, alert]
    | some field =>
      cases field with
      | none => right; left; simp [sendToBackendResume, hg, orEmpty]
      | some v =>
        cases ht : v.truthy with
        | false => right; left; simp [sendToBackendResume, hg, orEmpty, ht]
        | true =>
          right; right
          exact ⟨data, v, rfl, hg, ht, by simp [sendToBackendResume, hg, orEmpty, ht]⟩

theorem handle_predictions (e : Event) (s : State) :
    (handle e s).predictions = s.predictions
      ∨ (handle e s).predictions = JVal.arr []
      ∨ ∃ data v, e.payload = some data ∧ data.getPredictions = some (some v)
          ∧ v.truthy = true ∧ (handle e s).predictions = v := by
  cases e with
  | upload file =>
    cases file with
    | none => exact Or.inl rfl
    | some url => exact Or.inr (Or.inl rfl)
  | clickWebcam =>
    simp only [handle]
    split
    · right; left; simp [stopWebcam]
    · right; left
      unfold startWebcamBegin
      simp only []
      split <;> simp
  | clickPredict =>
    left
    simp only [handle, clickPredict, predictImage]
    split
    · rfl
    · split
      · rfl
      · split <;> rfl
  | cameraGranted tracks =>
    left
    simp only [handle]
    split
    · rfl
    · unfold startWebcamGranted settleCamera
      simp only []
      cases s.videoRef <;> simp
  | cameraDenied =>
    left
    simp only [handle]
    split <;> rfl
  | imageFetched ok =>
    left
    simp only [handle, predictImageFetched, sendToBackendBegin]
    split
    · rfl
    · split <;> rfl
  | backendResponse r =>
    simp only [handle]
    split
    · exact Or.inl rfl
    · rcases sendToBackendResume_predictions r (settleBackend s)
        with h | h | ⟨data, v, hr, hg, ht, hv⟩
      · left; simpa [predictImageResume, settleBackend] using h
      · right; left; simpa [predictImageResume] using h
      · right; right
        refine ⟨data, v, ?_, hg, ht, ?_⟩
        · simp [Event.payload, hr]
        · simpa [predictImageResume] using hv
  | wsOpen i =>
    left
    simp only [handle]
    split <;> rfl
  | wsMessage i parsed =>
    simp only [handle]
    split
    · rcases onmessage_predictions parsed s with h | ⟨data, v, hp, hg, ht, hv⟩
      · exact Or.inl h
      · right; right
        refine ⟨data, v, ?_, hg, ht, hv⟩
        simp [Event.payload, hp]
    · exact Or.inl rfl
  | wsError i =>
    left
    simp only [handle]
    split <;> rfl
  | wsClose i =>
    left
    simp only [handle]
    split <;> rfl
  | frameEncoded blob dataURL =>
    left
    simp only [handle, frameEncoded]
    cases s.wsRef with
    | none => rfl
    | some i => simp only []; split <;> rfl

theorem step_predictions (e : Event) (s : State) :
    (step e s).predictions = s.predictions
      ∨ (step e s).predictions = JVal.arr []
      ∨ ∃ data v, e.payload = some data ∧ data.getPredictions = some (some v)
          ∧ v.truthy = true ∧ (step e s).predictions = v := by
  simpa [step] using handle_predictions e s

theorem payload_of_not_answer (e : Event) (h : e.isAnswer = false) : e.payload = none := by
  cases e <;> simp [Event.isAnswer] at h <;> rfl

theorem run_predictions_empty (es : List Event) (s : State)
    (hs : s.predictions = JVal.arr []) (hes : ∀ e ∈ es, e.isAnswer = false) :
    (run es s).predictions = JVal.arr [] := by
  induction es generalizing s with
  | nil => simpa [run] using hs
  | cons e rest ih =>
    have he : e.payload = none := payload_of_not_answer e (hes e (List.mem_cons_self _ _))
    have hstep : (step e s).predictions = JVal.arr [] := by
      rcases step_predictions e s with h | h | ⟨data, v, hp, _⟩
      · rw [h, hs]
      · exact h
      · rw [he] at hp; cases hp
    have := ih (step e s) hstep (fun e' h' => hes e' (List.mem_cons_of_mem _ h'))
    simpa [run] using this

theorem startWebcamBegin_predictions (s : State) :
    (startWebcamBegin s).predictions = JVal.arr [] := by
  unfold startWebcamBegin
  simp only []
  split <;> simp

theorem startWebcam_predictions (camera : Option Nat) (s : State) :
    (startWebcam camera s).predictions = JVal.arr [] := by
  have hb : (commitRefs (startWebcamBegin s)).predictions = JVal.arr [] :=
    startWebcamBegin_predictions s
  unfold startWebcam
  simp only []
  split
  · cases camera with
    | none =>
      rcases step_predictions Event.cameraDenied (commitRefs (startWebcamBegin s))
        with h | h | ⟨data, v, hp, _⟩
      · rw [h, hb]
      · exact h
      · cases hp
    | some tracks =>
      rcases step_predictions (Event.cameraGranted tracks) (commitRefs (startWebcamBegin s))
        with h | h | ⟨data, v, hp, _⟩
      · rw [h, hb]
      · exact h
      · cases hp
  · exact hb

/-- C3 (amended): after `handleImageUpload` with a chosen file, after
`startWebcam` (from its first statements on, and at its end) and after
`stopWebcam` the predictions state is the empty list, and it is still the empty list after any
sequence of later events none of which is a one-shot response or a channel
message. -/
theorem predictions_empty_after_switch (s s1 : State) (es : List Event)
    (hsw : (∃ url, s1 = handleImageUpload (some url) s) ∨ s1 = startWebcamBegin s
      ∨ (∃ camera, s1 = startWebcam camera s) ∨ s1 = stopWebcam s)
    (hes : ∀ e ∈ es, e.isAnswer = false) :
    (run es s1).predictions = JVal.arr [] := by
  apply run_predictions_empty es s1 _ hes
  rcases hsw with ⟨url, h⟩ | h | ⟨camera, h⟩ | h
  · rw [h]; rfl
  · rw [h]; exact startWebcamBegin_predictions s
  · rw [h]; exact startWebcam_predictions camera s
  · rw [h]; simp [stopWebcam]

theorem predictions_empty_after_switch_witness :
    streamingCup.predictions = JVal.arr [cup]
      ∧ (stopWebcam streamingCup).predictions = JVal.arr []
      ∧ (run [Event.wsClose 0, Event.clickWebcam, Event.cameraGranted 1, Event.wsOpen 1,
          Event.clickPredict, Event.frameEncoded true "data:frame2"]
          (stopWebcam streamingCup)).image = some "data:frame2"
      ∧ (run [Event.wsClose 0, Event.clickWebcam, Event.cameraGranted 1, Event.wsOpen 1,
          Event.clickPredict, Event.frameEncoded true "data:frame2"]
          (stopWebcam streamingCup)).predictions = JVal.arr [] :=
  ⟨rfl,
    predictions_empty_after_switch streamingCup (stopWebcam streamingCup) []
      (Or.inr (Or.inr (Or.inr rfl))) (by decide),
    by decide,
    predictions_empty_after_switch streamingCup (stopWebcam streamingCup)
      [Event.wsClose 0, Event.clickWebcam, Event.cameraGranted 1, Event.wsOpen 1,
        Event.clickPredict, Event.frameEncoded true "data:frame2"]
      (Or.inr (Or.inr (Or.inr rfl))) (by decide)⟩

/-- C3 (counterexample): a prediction is requested for photo A and photo B is
chosen while the request is in flight: predictions are empty, the source is
photo B and the only request under way is the one for photo A; its answer then
arrives and fills predictions although no request for photo B was made. -/
theorem stale_answer_repopulates :
    photoChanged.predictions = JVal.arr []
      ∧ photoChanged.image = some "blob:photoB"
      ∧ photoChanged.useWebcam = false
      ∧ photoChanged.awaitingImage = 0
      ∧ photoChanged.awaitingBackend = 1
      ∧ (step (Event.backendResponse (FetchResult.body cupAnswer)) photoChanged).predictions
          = JVal.arr [cup]
      ∧ (step (Event.backendResponse (FetchResult.body cupAnswer)) photoChanged).image
          = some "blob:photoB"
      ∧ JVal.arr [cup] ≠ JVal.arr [] :=
  ⟨rfl, by decide, rfl, rfl, rfl, rfl, by decide, by simp⟩

/-- The same through the channel that `handleImageUpload` leaves open: with the
webcam streaming and one frame sent, an image is chosen; the answer to the
webcam frame then arrives and fills predictions. -/
theorem stale_frame_answer_after_upload :
    uploadedWhileStreaming.predictions = JVal.arr []
      ∧ uploadedWhileStreaming.image = some "blob:photo"
      ∧ uploadedWhileStreaming.useWebcam = false
      ∧ (step (Event.wsMessage 0 (some cupAnswer)) uploadedWhileStreaming).predictions
          = JVal.arr [cup] :=
  ⟨rfl, by decide, rfl, rfl⟩

/-! ## Starting the webcam -/

theorem openChannel_of_open (t : State) (i : Nat) (href : t.wsRef = some i)
    (hopen : readyStateOf t i = some 1) : openChannel t = t := by
  simp [openChannel, needsChannel, href, hopen]

theorem openChannel_length_le (t : State) :
    (openChannel t).sockets.length ≤ t.sockets.length + 1 := by
  unfold openChannel
  split <;> simp

@[simp] theorem openChannel_streams (t : State) : (openChannel t).streams = t.streams := by
  unfold openChannel
  split <;> rfl

@[simp] theorem openChannel_mediaDevices (t : State) :
    (openChannel t).mediaDevices = t.mediaDevices := by
  unfold openChannel
  split <;> rfl

theorem openChannel_channel_of_open (t : State) (i : Nat) (href : t.wsRef = some i)
    (hopen : readyStateOf t i = some 1) :
    (openChannel t).sockets = t.sockets ∧ (openChannel t).wsRef = some i := by
  rw [openChannel_of_open t i href hopen]
  exact ⟨rfl, href⟩

theorem startWebcamBegin_of_open (t : State) (i : Nat) (href : t.wsRef = some i)
    (hopen : readyStateOf t i = some 1) :
    (startWebcamBegin t).sockets = t.sockets ∧ (startWebcamBegin t).wsRef = some i := by
  unfold startWebcamBegin
  simp only []
  split
  · exact ⟨rfl, href⟩
  · apply openChannel_channel_of_open
    · exact href
    · exact hopen

theorem startWebcamGranted_of_open (tracks : Nat) (t : State) (i : Nat)
    (href : t.wsRef = some i) (hopen : readyStateOf t i = some 1) :
    (startWebcamGranted tracks t).sockets = t.sockets
      ∧ (startWebcamGranted tracks t).wsRef = some i := by
  unfold startWebcamGranted
  simp only []
  cases t.videoRef with
  | none =>
    simp only []
    apply openChannel_channel_of_open
    · exact href
    · exact hopen
  | some v =>
    simp only []
    apply openChannel_channel_of_open
    · exact href
    · exact hopen

theorem handle_cameraGranted_of_open (tracks : Nat) (t : State) (i : Nat)
    (href : t.wsRef = some i) (hopen : readyStateOf t i = some 1) :
    (handle (Event.cameraGranted tracks) t).sockets = t.sockets
      ∧ (handle (Event.cameraGranted tracks) t).wsRef = some i := by
  simp only [handle]
  split
  · exact ⟨rfl, href⟩
  · apply startWebcamGranted_of_open
    · exact href
    · exact hopen

theorem handle_cameraDenied_channel (t : State) :
    (handle Event.cameraDenied t).sockets = t.sockets
      ∧ (handle Event.cameraDenied t).wsRef = t.wsRef := by
  simp only [handle]
  split <;> exact ⟨rfl, rfl⟩

theorem startWebcam_of_open (t : State) (camera : Option Nat) (i : Nat)
    (href : t.wsRef = some i) (hopen : readyStateOf t i = some 1) :
    (startWebcam camera t).sockets = t.sockets ∧ (startWebcam camera t).wsRef = some i := by
  have hb := startWebcamBegin_of_open t i href hopen
  have hbo : readyStateOf (commitRefs (startWebcamBegin t)) i = some 1 := by
    unfold readyStateOf at hopen ⊢
    rw [commitRefs_sockets, hb.1]; exact hopen
  unfold startWebcam
  simp only []
  split
  · cases camera with
    | none =>
      have h := handle_cameraDenied_channel (commitRefs (startWebcamBegin t))
      simp only [step, commitRefs_sockets, commitRefs_wsRef] at h ⊢
      rw [h.1, h.2]; exact hb
    | some tracks =>
      have h := handle_cameraGranted_of_open tracks (commitRefs (startWebcamBegin t)) i hb.2 hbo
      simp only [step, commitRefs_sockets, commitRefs_wsRef] at h ⊢
      rw [h.1, h.2]; exact ⟨hb.1, rfl⟩
  · exact hb

theorem startWebcamBegin_of_media (t : State) (hm : t.mediaDevices = true) :
    (startWebcamBegin t).sockets = t.sockets ∧ (startWebcamBegin t).streams = t.streams
      ∧ (startWebcamBegin t).awaitingCamera = t.awaitingCamera + 1 := by
  simp [startWebcamBegin, hm]

theorem startWebcamBegin_length_le (t : State) :
    (startWebcamBegin t).sockets.length ≤ t.sockets.length + 1 := by
  unfold startWebcamBegin
  simp only []
  split
  · simp
  · apply openChannel_length_le

theorem startWebcamGranted_length_le (tracks : Nat) (t : State) :
    (startWebcamGranted tracks t).sockets.length ≤ t.sockets.length + 1 := by
  unfold startWebcamGranted
  simp only []
  cases t.videoRef with
  | none => apply openChannel_length_le
  | some v => apply openChannel_length_le

theorem startWebcamGranted_streams (tracks : Nat) (t : State) :
    (startWebcamGranted tracks t).streams = t.streams ++ [List.replicate tracks true] := by
  unfold startWebcamGranted
  simp only []
  cases t.videoRef <;> simp

theorem startWebcam_length_le (t : State) (camera : Option Nat) :
    (startWebcam camera t).sockets.length ≤ t.sockets.length + 1 := by
  unfold startWebcam
  simp only []
  split
  next hm =>
    have hb := startWebcamBegin_of_media t hm
    cases camera with
    | none =>
      have h := handle_cameraDenied_channel (commitRefs (startWebcamBegin t))
      simp only [step, commitRefs_sockets] at h ⊢
      rw [h.1, hb.1]; omega
    | some tracks =>
      simp only [step, handle, commitRefs_sockets, commitRefs_awaitingCamera]
      split
      · rw [commitRefs_sockets, hb.1]; omega
      · have := startWebcamGranted_length_le tracks (settleCamera (commitRefs (startWebcamBegin t)))
        have h2 : (settleCamera (commitRefs (startWebcamBegin t))).sockets = t.sockets := hb.1
        rw [h2] at this
        exact this
  next => exact startWebcamBegin_length_le t

theorem startWebcam_streams_granted (t : State) (tracks : Nat) (hm : t.mediaDevices = true) :
    (startWebcam (some tracks) t).streams = t.streams ++ [List.replicate tracks true] := by
  have hb := startWebcamBegin_of_media t hm
  unfold startWebcam
  simp only [hm, if_true, step, handle, commitRefs_streams, commitRefs_awaitingCamera, hb.2.2,
    Nat.add_one_ne_zero, if_false]
  rw [startWebcamGranted_streams]
  show (startWebcamBegin t).streams ++ _ = _
  rw [hb.2.1]

theorem step_wsOpen_keeps (i : Nat) (t : State) :
    (step (Event.wsOpen i) t).wsRef = t.wsRef
      ∧ (step (Event.wsOpen i) t).sockets.length = t.sockets.length
      ∧ (step (Event.wsOpen i) t).streams = t.streams
      ∧ (step (Event.wsOpen i) t).mediaDevices = t.mediaDevices := by
  simp only [step, handle, commitRefs_wsRef, commitRefs_sockets, commitRefs_streams,
    commitRefs_mediaDevices]
  split
  · simp [onopen, setReadyState, length_modifyAt]
  · simp

theorem startWebcamBegin_mediaDevices (t : State) :
    (startWebcamBegin t).mediaDevices = t.mediaDevices := by
  unfold startWebcamBegin
  simp only []
  split
  · rfl
  · simp

theorem startWebcamGranted_mediaDevices (tracks : Nat) (t : State) :
    (startWebcamGranted tracks t).mediaDevices = t.mediaDevices := by
  unfold startWebcamGranted
  simp only []
  cases t.videoRef <;> simp

theorem startWebcam_mediaDevices (t : State) (camera : Option Nat) :
    (startWebcam camera t).mediaDevices = t.mediaDevices := by
  unfold startWebcam
  simp only []
  split
  · cases camera with
    | none =>
      simp only [step, handle, commitRefs_mediaDevices]
      split
      · exact startWebcamBegin_mediaDevices t
      · exact startWebcamBegin_mediaDevices t
    | some tracks =>
      simp only [step, handle, commitRefs_mediaDevices]
      split
      · exact startWebcamBegin_mediaDevices t
      · rw [startWebcamGranted_mediaDevices]
        exact startWebcamBegin_mediaDevices t
  · exact startWebcamBegin_mediaDevices t

/-- The guard of line 73 at work: when the channel referenced after a first
`startWebcam` has opened, a second `startWebcam` opens no channel and keeps the
reference; with the media API present, two calls whose camera requests are
granted acquire one stream each. -/
theorem startWebcam_twice_open (s : State) (camera1 camera2 : Option Nat) (i : Nat)
    (href : (startWebcam camera1 s).wsRef = some i)
    (hopen : readyStateOf (step (Event.wsOpen i) (startWebcam camera1 s)) i = some 1) :
    (startWebcam camera2 (step (Event.wsOpen i) (startWebcam camera1 s))).sockets
        = (step (Event.wsOpen i) (startWebcam camera1 s)).sockets
      ∧ (startWebcam camera2 (step (Event.wsOpen i) (startWebcam camera1 s))).wsRef = some i
      ∧ (startWebcam camera2 (step (Event.wsOpen i) (startWebcam camera1 s))).sockets.length
          ≤ s.sockets.length + 1
      ∧ (∀ tracks1 tracks2, s.mediaDevices = true → camera1 = some tracks1 →
          camera2 = some tracks2 →
          (startWebcam camera2 (step (Event.wsOpen i) (startWebcam camera1 s))).streams
            = s.streams ++ [List.replicate tracks1 true, List.replicate tracks2 true]) := by
  have hk := step_wsOpen_keeps i (startWebcam camera1 s)
  have h2 := startWebcam_of_open (step (Event.wsOpen i) (startWebcam camera1 s)) camera2 i
    (by rw [hk.1]; exact href) hopen
  refine ⟨h2.1, h2.2, ?_, ?_⟩
  · rw [h2.1, hk.2.1]
    exact startWebcam_length_le s camera1
  · intro tracks1 tracks2 hm h1 h2'
    subst h1 h2'
    rw [startWebcam_streams_granted _ _ (by rw [hk.2.2.2, startWebcam_mediaDevices]; exact hm),
      hk.2.2.1, startWebcam_streams_granted _ _ hm]
    simp


theorem startWebcam_twice_open_witness :
    (startWebcam (some 1) (init true)).wsRef = some 0
      ∧ (startWebcam (some 1)
          (step (Event.wsOpen 0) (startWebcam (some 1) (init true)))).sockets.length
        ≤ (init true).sockets.length + 1 :=
  ⟨by decide,
    (startWebcam_twice_open (init true) (some 1) (some 1) 0 (by decide) (by decide)).2.2.1⟩

/-- C4 (the code at the failing input): from the first render, two
`startWebcam` calls in a row, camera granted both times and the first channel still connecting at the
second call, leave two live streams and two connecting channels; the same
state of streams and channels is reached through the buttons when an image is
chosen between the two starts. -/
theorem startWebcam_twice_two_channels :
    (init true).streams.length = 0 ∧ (init true).sockets.length = 0
      ∧ startedTwice.streams.length = 2 ∧ activeTracks startedTwice = 2
      ∧ startedTwice.sockets.length = 2
      ∧ readyStateOf startedTwice 0 = some 0 ∧ readyStateOf startedTwice 1 = some 0
      ∧ activeTracks restartedWhileConnecting = 2
      ∧ restartedWhileConnecting.sockets.length = 2
      ∧ readyStateOf restartedWhileConnecting 0 = some 0
      ∧ readyStateOf restartedWhileConnecting 1 = some 0 := by
  decide

/-! ## The predict button and the channel -/

/-- C5 (the code at the failing input): with the webcam running on an open
channel, `handleImageUpload` with a chosen file installs the image, leaves
webcam mode and clears predictions, but the camera track stays live and the
channel stays open and referenced. -/
theorem upload_keeps_stream_and_channel :
    activeTracks webcamRunning = 1 ∧ webcamRunning.wsRef = some 0
      ∧ readyStateOf webcamRunning 0 = some 1
      ∧ (handleImageUpload (some "blob:photo") webcamRunning).image = some "blob:photo"
      ∧ (handleImageUpload (some "blob:photo") webcamRunning).useWebcam = false
      ∧ (handleImageUpload (some "blob:photo") webcamRunning).predictions = JVal.arr []
      ∧ activeTracks (handleImageUpload (some "blob:photo") webcamRunning) = 1
      ∧ (handleImageUpload (some "blob:photo") webcamRunning).wsRef = some 0
      ∧ readyStateOf (handleImageUpload (some "blob:photo") webcamRunning) 0 = some 1
      ∧ activeTracks (step (Event.upload (some "blob:photo")) webcamRunning) = 1
      ∧ readyStateOf (step (Event.upload (some "blob:photo")) webcamRunning) 0 = some 1 :=
  ⟨by decide, by decide, by decide, by decide, rfl, rfl, by decide, by decide, by decide,
    by decide, by decide⟩

theorem handleImageUpload_keeps (file : Option String) (s : State) :
    (handleImageUpload file s).streams = s.streams
      ∧ (handleImageUpload file s).sockets = s.sockets
      ∧ (handleImageUpload file s).wsRef = s.wsRef := by
  cases file <;> exact ⟨rfl, rfl, rfl⟩

theorem ChannelInv_congr (s t : State) (h1 : t.wsActive = s.wsActive) (h2 : t.wsRef = s.wsRef)
    (h3 : t.sockets = s.sockets) (h : ChannelInv s) : ChannelInv t := by
  unfold ChannelInv SomeChannelUp readyStateOf at *
  rw [h1, h2, h3]
  exact h

theorem exists_mem_modifyAt {α : Type} (f : α → α) (Q : α → Prop) (hf : ∀ k, Q k → Q (f k))
    (xs : List α) (j : Nat) (h : ∃ k ∈ xs, Q k) : ∃ k ∈ modifyAt f j xs, Q k := by
  induction xs generalizing j with
  | nil => simp at h
  | cons x rest ih =>
    obtain ⟨k, hk, hq⟩ := h
    cases j with
    | zero =>
      simp only [modifyAt]
      rcases List.mem_cons.1 hk with rfl | hk'
      · exact ⟨f k, List.mem_cons_self _ _, hf k hq⟩
      · exact ⟨k, List.mem_cons_of_mem _ hk', hq⟩
    | succ j =>
      simp only [modifyAt]
      rcases List.mem_cons.1 hk with rfl | hk'
      · exact ⟨k, List.mem_cons_self _ _, hq⟩
      · obtain ⟨k', hk'', hq'⟩ := ih j ⟨k, hk', hq⟩
        exact ⟨k', List.mem_cons_of_mem _ hk'', hq'⟩

theorem mem_modifyAt_of_get? {α : Type} (f : α → α) (xs : List α) (j : Nat) (k : α)
    (h : xs.get? j = some k) : f k ∈ modifyAt f j xs := by
  have : (modifyAt f j xs).get? j = some (f k) := by
    rw [get?_modifyAt, if_pos rfl, h]; rfl
  exact List.get?_mem this

theorem ChannelInv_openChannel (s : State) (h : ChannelInv s) : ChannelInv (openChannel s) := by
  unfold openChannel
  split
  · refine ⟨?_, ?_⟩
    · intro ha
      obtain ⟨k, hk, hq⟩ := h.1 ha
      exact ⟨k, List.mem_append_left _ hk, hq⟩
    · intro i hi
      left
      simp only [Option.some.injEq] at hi
      subst hi
      simp [readyStateOf]
  · exact h

theorem ChannelInv_closeChannel (s : State) (h : ChannelInv s) :
    ChannelInv (closeChannel s) := by
  refine ⟨?_, ?_⟩
  · intro ha
    have ha' : s.wsActive = true := by simpa using ha
    unfold closeChannel
    cases hw : s.wsRef with
    | none => simpa [hw] using h.1 ha'
    | some i =>
      simp only []
      apply exists_mem_modifyAt Socket.close (fun k => k.readyState = 1 ∨ k.readyState = 2)
      · intro k hk
        unfold Socket.close
        split
        · right; rfl
        · exact hk
      · exact h.1 ha'
  · intro i hi
    simp at hi


theorem ChannelInv_teardown (t : State) (h : ChannelInv t) :
    ChannelInv (clearCanvas (releaseCamera (closeChannel t))) :=
  ChannelInv_congr (closeChannel t) _ (by simp) (by simp) (by simp)
    (ChannelInv_closeChannel t h)

theorem ChannelInv_stopWebcam (s : State) (h : ChannelInv s) : ChannelInv (stopWebcam s) := by
  unfold stopWebcam
  exact ChannelInv_teardown _ (ChannelInv_congr s _ rfl rfl rfl h)

theorem ChannelInv_startWebcamBegin (s : State) (h : ChannelInv s) :
    ChannelInv (startWebcamBegin s) := by
  unfold startWebcamBegin
  simp only []
  split
  · exact ChannelInv_congr s _ rfl rfl rfl h
  · apply ChannelInv_openChannel
    exact ChannelInv_congr s _ rfl rfl rfl h

theorem ChannelInv_startWebcamGranted (tracks : Nat) (s : State) (h : ChannelInv s) :
    ChannelInv (startWebcamGranted tracks s) := by
  unfold startWebcamGranted
  simp only []
  cases s.videoRef with
  | none =>
    apply ChannelInv_openChannel
    exact ChannelInv_congr s _ rfl rfl rfl h
  | some v =>
    apply ChannelInv_openChannel
    exact ChannelInv_congr s _ rfl rfl rfl h

theorem ChannelInv_wsOpen (i : Nat) (s : State) (h : ChannelInv s)
    (hi : readyStateOf s i = some 0) : ChannelInv (onopen (setReadyState i 1 s)) := by
  unfold readyStateOf at hi
  cases hk : s.sockets.get? i with
  | none => rw [hk] at hi; simp at hi
  | some k =>
    refine ⟨?_, ?_⟩
    · intro _
      refine ⟨_, mem_modifyAt_of_get? (fun k => { k with readyState := 1 }) s.sockets i k hk, ?_⟩
      left; rfl
    · intro j hj
      have hj' : s.wsRef = some j := hj
      have := h.2 j hj'
      unfold readyStateOf at this ⊢
      show Option.map Socket.readyState
          ((modifyAt (fun k => { k with readyState := 1 }) i s.sockets).get? j) = some 0
        ∨ Option.map Socket.readyState
          ((modifyAt (fun k => { k with readyState := 1 }) i s.sockets).get? j) = some 1
      rw [get?_modifyAt]
      by_cases hji : j = i
      · subst hji
        rw [if_pos rfl, hk]
        right; rfl
      · rw [if_neg hji]
        exact this

theorem ChannelInv_frameEncoded (blob : Bool) (dataURL : String) (s : State)
    (h : ChannelInv s) : ChannelInv (frameEncoded blob dataURL s) := by
  unfold frameEncoded
  cases hw : s.wsRef with
  | none => exact h
  | some i =>
    simp only []
    split
    · refine ⟨?_, ?_⟩
      · intro ha
        have ha' : s.wsActive = true := ha
        show ∃ k ∈ modifyAt (fun k => { k with sent := k.sent + 1 }) i s.sockets,
          k.readyState = 1 ∨ k.readyState = 2
        exact exists_mem_modifyAt (fun k : Socket => { k with sent := k.sent + 1 })
          (fun k : Socket => k.readyState = 1 ∨ k.readyState = 2) (fun k hk => hk)
          s.sockets i (h.1 ha')
      · intro j hj
        have hj' : s.wsRef = some j := by rw [hw]; exact hj
        have := h.2 j hj'
        unfold readyStateOf at this ⊢
        show Option.map Socket.readyState
            ((modifyAt (fun k => { k with sent := k.sent + 1 }) i s.sockets).get? j) = some 0
          ∨ Option.map Socket.readyState
            ((modifyAt (fun k => { k with sent := k.sent + 1 }) i s.sockets).get? j) = some 1
        rw [get?_modifyAt]
        by_cases hji : j = i
        · rw [if_pos hji]
          cases hk : s.sockets.get? j with
          | none => rw [hk] at this; simp at this
          | some k => rw [hk] at this; exact this
        · rw [if_neg hji]
          exact this
    · exact h

theorem ChannelInv_handle (e : Event) (s : State) (h : ChannelInv s) :
    ChannelInv (handle e s) := by
  cases e with
  | upload file =>
    cases file with
    | none => exact h
    | some url => exact ChannelInv_congr s _ rfl rfl rfl h
  | clickWebcam =>
    simp only [handle]
    split
    · exact ChannelInv_stopWebcam s h
    · exact ChannelInv_startWebcamBegin s h
  | clickPredict =>
    simp only [handle, clickPredict, predictImage]
    split
    · exact h
    · split
      · exact ChannelInv_congr s _ rfl rfl rfl h
      · split
        · exact ChannelInv_congr s _ rfl rfl rfl h
        · exact h
  | cameraGranted tracks =>
    simp only [handle]
    split
    · exact h
    · apply ChannelInv_startWebcamGranted
      exact ChannelInv_congr s _ rfl rfl rfl h
  | cameraDenied =>
    simp only [handle]
    split
    · exact h
    · exact ChannelInv_congr s _ rfl rfl rfl h
  | imageFetched ok =>
    simp only [handle, predictImageFetched, sendToBackendBegin]
    split
    · exact h
    · split
      · exact ChannelInv_congr s _ rfl rfl rfl h
      · exact ChannelInv_congr s _ rfl rfl rfl h
  | backendResponse r =>
    simp only [handle]
    split
    · exact h
    · apply ChannelInv_congr s _ _ _ _ h
      · cases r with
        | transportError => rfl
        | parseError => rfl
        | body data =>
          simp only [predictImageResume, sendToBackendResume]
          cases data.getPredictions <;> rfl
      · cases r with
        | transportError => rfl
        | parseError => rfl
        | body data =>
          simp only [predictImageResume, sendToBackendResume]
          cases data.getPredictions <;> rfl
      · cases r with
        | transportError => rfl
        | parseError => rfl
        | body data =>
          simp only [predictImageResume, sendToBackendResume]
          cases data.getPredictions <;> rfl
  | wsOpen i =>
    simp only [handle]
    split
    · next hi => exact ChannelInv_wsOpen i s h hi
    · exact h
  | wsMessage i parsed =>
    simp only [handle]
    split
    · apply ChannelInv_congr s _ _ _ _ h
      all_goals
        unfold onmessage
        cases parsed with
        | none => rfl
        | some data =>
          simp only []
          cases data.getPredictions with
          | none => rfl
          | some field =>
            cases field with
            | none => rfl
            | some v => simp only []; split <;> rfl
    · exact h
  | wsError i =>
    simp only [handle]
    split
    · exact ⟨fun ha => by simp [onclose] at ha, fun j hj => by simp [onclose] at hj⟩
    · exact h
  | wsClose i =>
    simp only [handle]
    split
    · exact ⟨fun ha => by simp [onclose] at ha, fun j hj => by simp [onclose] at hj⟩
    · exact h
  | frameEncoded blob dataURL => exact ChannelInv_frameEncoded blob dataURL s h

theorem ChannelInv_step (e : Event) (s : State) (h : ChannelInv s) : ChannelInv (step e s) :=
  ChannelInv_congr (handle e s) _ rfl rfl rfl (ChannelInv_handle e s h)

theorem ChannelInv_run (es : List Event) (s : State) (h : ChannelInv s) :
    ChannelInv (run es s) := by
  induction es generalizing s with
  | nil => exact h
  | cons e rest ih => exact ih (step e s) (ChannelInv_step e s h)

theorem ChannelInv_init (mediaDevices : Bool) : ChannelInv (init mediaDevices) :=
  ⟨fun ha => by simp [init] at ha, fun i hi => by simp [init] at hi⟩

theorem ChannelInv_of_reachable (s : State) (h : Reachable s) : ChannelInv s := by
  obtain ⟨mediaDevices, es, rfl⟩ := h
  exact ChannelInv_run es _ (ChannelInv_init mediaDevices)

/-- What the gate of line 271 does give in every reachable state in which the
predict button is enabled: in static mode an image is loaded; in webcam mode
the readiness flag is set and some channel created by the component is open or
closing; and a non-null channel reference refers to a connecting or open
channel. -/
theorem predict_enabled_of_reachable (s : State) (hr : Reachable s)
    (hen : predictDisabled s = false) :
    (s.useWebcam = false → s.image.isSome = true)
      ∧ (s.useWebcam = true → s.wsActive = true ∧ SomeChannelUp s)
      ∧ ∀ i, s.wsRef = some i → readyStateOf s i = some 0 ∨ readyStateOf s i = some 1 := by
  have hinv := ChannelInv_of_reachable s hr
  unfold predictDisabled at hen
  refine ⟨?_, ?_, hinv.2⟩
  · intro hw
    rw [hw] at hen
    simpa using hen
  · intro hw
    rw [hw] at hen
    have ha : s.wsActive = true := by simpa using hen
    exact ⟨ha, hinv.1 ha⟩

theorem predict_enabled_of_reachable_witness :
    predictDisabled webcamRunning = false
      ∧ (webcamRunning.useWebcam = true → webcamRunning.wsActive = true
          ∧ SomeChannelUp webcamRunning) :=
  ⟨by decide,
    (predict_enabled_of_reachable webcamRunning
      ⟨true, [Event.clickWebcam, Event.cameraGranted 1, Event.wsOpen 0], rfl⟩ (by decide)).2.1⟩

/-- C6 (the code at the failing input): stop the running webcam and start it
again before the close event of the old channel is delivered: the button is
enabled in webcam mode with a null channel reference and no open channel.  When
that close event arrives after the new channel was created and the new channel
then opens, the state is stuck: the button is enabled, the reference is null
although a channel is open, and with prediction switched on every captured
frame is dropped.  And when the webcam is restarted while the first channel is
still connecting and that channel then opens, the button is enabled while the
referenced channel is connecting. -/
theorem predict_enabled_without_channel :
    Reachable restartedBeforeClose
      ∧ predictDisabled restartedBeforeClose = false
      ∧ restartedBeforeClose.useWebcam = true
      ∧ restartedBeforeClose.wsRef = none
      ∧ restartedBeforeClose.sockets.length = 1
      ∧ readyStateOf restartedBeforeClose 0 = some 2
      ∧ Reachable firstOpensAfterRestart
      ∧ predictDisabled firstOpensAfterRestart = false
      ∧ firstOpensAfterRestart.useWebcam = true
      ∧ firstOpensAfterRestart.wsRef = some 1
      ∧ readyStateOf firstOpensAfterRestart 1 = some 0
      ∧ Reachable stuckAfterRestart
      ∧ predictDisabled stuckAfterRestart = false
      ∧ stuckAfterRestart.useWebcam = true
      ∧ stuckAfterRestart.wsActive = true
      ∧ stuckAfterRestart.wsRef = none
      ∧ readyStateOf stuckAfterRestart 0 = some 3
      ∧ readyStateOf stuckAfterRestart 1 = some 1
      ∧ (step Event.clickPredict stuckAfterRestart).predicting = true
      ∧ (step (Event.frameEncoded true "data:frame")
          (step Event.clickPredict stuckAfterRestart)).sockets.map Socket.sent = [0, 0] :=
  ⟨⟨true, _, rfl⟩, by decide, by decide, by decide, by decide, by decide,
    ⟨true, [Event.clickWebcam, Event.cameraGranted 1, Event.upload (some "blob:photo"),
      Event.clickWebcam, Event.cameraGranted 1, Event.wsOpen 0], rfl⟩,
    by decide, by decide, by decide, by decide,
    ⟨true, _, rfl⟩, by decide, by decide, by decide, by decide, by decide, by decide,
    by decide, by decide⟩

/-! ## Channel failure -/

theorem openChannel_of_null (t : State) (h : t.wsRef = none) :
    (openChannel t).sockets = t.sockets ++ [{ readyState := 0, sent := 0 }]
      ∧ (openChannel t).wsRef = some t.sockets.length := by
  simp [openChannel, needsChannel, h]

theorem startWebcamGranted_of_null (tracks : Nat) (t : State) (h : t.wsRef = none) :
    (startWebcamGranted tracks t).sockets = t.sockets ++ [{ readyState := 0, sent := 0 }]
      ∧ (startWebcamGranted tracks t).wsRef = some t.sockets.length := by
  unfold startWebcamGranted
  simp only []
  cases t.videoRef with
  | none =>
    simp only []
    apply openChannel_of_null
    exact h
  | some v =>
    simp only []
    apply openChannel_of_null
    exact h

theorem startWebcam_of_null (tracks : Nat) (t : State) (h : t.wsRef = none) :
    (startWebcam (some tracks) t).sockets = t.sockets ++ [{ readyState := 0, sent := 0 }]
      ∧ (startWebcam (some tracks) t).wsRef = some t.sockets.length := by
  unfold startWebcam
  simp only []
  split
  next hm =>
    have hb := startWebcamBegin_of_media t hm
    have hw : (startWebcamBegin t).wsRef = none := by
      simp [startWebcamBegin, hm, h]
    simp only [step, handle, commitRefs_sockets, commitRefs_wsRef, commitRefs_awaitingCamera,
      hb.2.2, Nat.add_one_ne_zero, if_false]
    have := startWebcamGranted_of_null tracks (settleCamera (commitRefs (startWebcamBegin t))) hw
    rw [this.1, this.2]
    show (startWebcamBegin t).sockets ++ _ = _ ∧ some (startWebcamBegin t).sockets.length = _
    rw [hb.1]
    exact ⟨rfl, rfl⟩
  next hm =>
    simp only [commitRefs_sockets, commitRefs_wsRef]
    unfold startWebcamBegin
    simp only [hm]
    apply openChannel_of_null
    exact h

theorem step_failure_fields (e : Event) (i : Nat) (s : State)
    (he : e = Event.wsError i ∨ e = Event.wsClose i)
    (hi : readyStateOf s i = some 0 ∨ readyStateOf s i = some 1) :
    (step e s).wsActive = false ∧ (step e s).wsRef = none
      ∧ (step e s).sockets = modifyAt (fun k => { k with readyState := 3 }) i s.sockets := by
  have ha : alive s i = true := by
    unfold alive
    rcases hi with h | h <;> simp [h]
  rcases he with rfl | rfl
  · simp [step, handle, ha, onclose, onerror, setReadyState]
  · simp [step, handle, ha, onclose, setReadyState]

/-- C7 (amended): in every state, an error or a close event of a channel that
is connecting or open leaves `wsActive = false` and a null channel reference (and
that channel closed), so the predict button is disabled in webcam mode, the
condition of line 73 holds, and a `startWebcam` run after it (camera granted,
or no media API) creates one new connecting channel and references it. -/
theorem channel_failure_resets (s : State) (i tracks : Nat) (e : Event)
    (he : e = Event.wsError i ∨ e = Event.wsClose i)
    (hi : readyStateOf s i = some 0 ∨ readyStateOf s i = some 1) :
    (step e s).wsActive = false
      ∧ (step e s).wsRef = none
      ∧ readyStateOf (step e s) i = some 3
      ∧ ((step e s).useWebcam = true → predictDisabled (step e s) = true)
      ∧ needsChannel (step e s) = true
      ∧ (startWebcam (some tracks) (step e s)).sockets
          = (step e s).sockets ++ [{ readyState := 0, sent := 0 }]
      ∧ (startWebcam (some tracks) (step e s)).wsRef = some (step e s).sockets.length
      ∧ readyStateOf (startWebcam (some tracks) (step e s)) (step e s).sockets.length
          = some 0 := by
  have hf := step_failure_fields e i s he hi
  have hs := startWebcam_of_null tracks (step e s) hf.2.1
  refine ⟨hf.1, hf.2.1, ?_, ?_, ?_, hs.1, hs.2, ?_⟩
  · unfold readyStateOf at hi ⊢
    rw [hf.2.2, get?_modifyAt, if_pos rfl]
    cases hk : s.sockets.get? i with
    | none => rw [hk] at hi; simp at hi
    | some k => rfl
  · intro hw
    simp [predictDisabled, hw, hf.1]
  · simp [needsChannel, hf.2.1]
  · unfold readyStateOf
    rw [hs.1]
    simp

/-- C7 (counterexample): the open channel of the running webcam closes, the
webcam is stopped and started again, and the camera request is rejected: this
`startWebcam` ends at `getUserMedia`, no channel is opened and the reference
stays null. -/
theorem denied_start_opens_no_channel :
    Reachable deniedAfterClose
      ∧ deniedAfterClose.useWebcam = true
      ∧ deniedAfterClose.awaitingCamera = 0
      ∧ deniedAfterClose.wsRef = none
      ∧ deniedAfterClose.sockets.length = 1
      ∧ readyStateOf deniedAfterClose 0 = some 3
      ∧ (startWebcam none (step (Event.wsClose 0) webcamRunning)).wsRef = none
      ∧ (startWebcam none (step (Event.wsClose 0) webcamRunning)).sockets.length = 1 :=
  ⟨⟨true, _, rfl⟩, by decide, by decide, by decide, by decide, by decide, by decide, by decide⟩

theorem channel_failure_resets_witness :
    readyStateOf webcamRunning 0 = some 1
      ∧ (step (Event.wsClose 0) webcamRunning).wsActive = false
      ∧ (step (Event.wsClose 0) webcamRunning).wsRef = none :=
  ⟨by decide,
    (channel_failure_resets webcamRunning 0 1 (Event.wsClose 0) (Or.inr rfl)
      (Or.inr (by decide))).1,
    (channel_failure_resets webcamRunning 0 1 (Event.wsClose 0) (Or.inr rfl)
      (Or.inr (by decide))).2.1⟩

/-! ## Backend answers -/

/-- C8 (amended): when the request of `sendToBackend` is rejected, its body
does not parse, or the body is JSON `null`, one alert is raised, predictions
are left as they were and loading is false; for every other body no alert is
raised, loading is false, and predictions become the body's `predictions` value
when that is truthy (every array is) and the empty list when it is absent or
falsy. -/
theorem sendToBackendResume_spec (s : State) :
    (∀ r, r = FetchResult.transportError ∨ r = FetchResult.parseError
        ∨ r = FetchResult.body JVal.null →
        (sendToBackendResume r s).alerts = s.alerts ++ ["Prediction failed."]
          ∧ (sendToBackendResume r s).predictions = s.predictions
          ∧ (sendToBackendResume r s).loading = false)
      ∧ (∀ data, data ≠ JVal.null →
          (sendToBackendResume (FetchResult.body data) s).alerts = s.alerts
            ∧ (sendToBackendResume (FetchResult.body data) s).loading = false
            ∧ (∀ v, data.getPredictions = some (some v) → v.truthy = true →
                (sendToBackendResume (FetchResult.body data) s).predictions = v)
            ∧ (∀ items, data.getPredictions = some (some (JVal.arr items)) →
                (sendToBackendResume (FetchResult.body data) s).predictions = JVal.arr items)
            ∧ (data.getPredictions = some none →
                (sendToBackendResume (FetchResult.body data) s).predictions = JVal.arr [])
            ∧ (∀ v, data.getPredictions = some (some v) → v.truthy = false →
                (sendToBackendResume (FetchResult.body data) s).predictions = JVal.arr [])) := by
  refine ⟨?_, ?_⟩
  · intro r hr
    rcases hr with rfl | rfl | rfl <;> exact ⟨rfl, rfl, rfl⟩
  · intro data hd
    have hg : ∃ field, data.getPredictions = some field := by
      cases data with
      | null => exact absurd rfl hd
      | bool b => exact ⟨_, rfl⟩
      | num q => exact ⟨_, rfl⟩
      | str t => exact ⟨_, rfl⟩
      | arr items => exact ⟨_, rfl⟩
      | obj fields => exact ⟨_, rfl⟩
    obtain ⟨field, hf⟩ := hg
    refine ⟨?_, ?_, ?_, ?_, ?_, ?_⟩
    · simp [sendToBackendResume, hf]
    · simp [sendToBackendResume, hf]
    · intro v hv ht
      simp [sendToBackendResume, hv, orEmpty, ht]
    · intro items hv
      simp [sendToBackendResume, hv, orEmpty, JVal.truthy]
    · intro hv
      simp [sendToBackendResume, hv, orEmpty]
    · intro v hv ht
      simp [sendToBackendResume, hv, orEmpty, ht]

theorem sendToBackendResume_spec_witness :
    (sendToBackendResume FetchResult.transportError predictedCup).predictions = JVal.arr [cup]
      ∧ (sendToBackendResume (FetchResult.body cupAnswer) (init true)).predictions
          = JVal.arr [cup] :=
  ⟨((sendToBackendResume_spec predictedCup).1 FetchResult.transportError (Or.inl rfl)).2.1,
    ((sendToBackendResume_spec (init true)).2 cupAnswer (by simp [cupAnswer])).2.2.2.1
      [cup] rfl⟩

/-- C8 (counterexample): with one detection shown, a request whose response is
the JSON body `null` succeeds in transport and parses, has no `predictions`
field, and yet raises the alert and leaves the detection in place instead of
the empty list. -/
theorem null_body_is_a_failure :
    predictedCup.predictions = JVal.arr [cup]
      ∧ predictedCup.alerts = []
      ∧ (sendToBackend (FetchResult.body JVal.null) predictedCup).predictions = JVal.arr [cup]
      ∧ (sendToBackend (FetchResult.body JVal.null) predictedCup).alerts
          = ["Prediction failed."]
      ∧ (sendToBackend (FetchResult.body JVal.null) predictedCup).loading = false
      ∧ JVal.arr [cup] ≠ JVal.arr [] :=
  ⟨rfl, by decide, rfl, by decide, rfl, by simp⟩

/-- C9 (amended): a channel message that is JSON with a truthy `predictions`
value (every array is truthy) replaces the predictions state by exactly that
value and changes nothing else; a message that is malformed, is `null`, has no
such field, or has a falsy one (`null`, `false`, `0`, `""`) changes nothing. -/
theorem onmessage_spec (s : State) :
    (∀ data v, data.getPredictions = some (some v) → v.truthy = true →
        onmessage (some data) s = { s with predictions := v })
      ∧ (∀ parsed,
          (∀ data v, parsed = some data → data.getPredictions = some (some v) →
            v.truthy = false) →
          onmessage parsed s = s) := by
  refine ⟨?_, ?_⟩
  · intro data v hv ht
    simp [onmessage, hv, ht]
  · intro parsed h
    cases parsed with
    | none => rfl
    | some data =>
      cases hg : data.getPredictions with
      | none => simp [onmessage, hg]
      | some field =>
        cases field with
        | none => simp [onmessage, hg]
        | some v => simp [onmessage, hg, h data v rfl hg]

theorem onmessage_spec_witness :
    (onmessage (some cupAnswer) webcamRunning).predictions = JVal.arr [cup]
      ∧ onmessage (some nullAnswer) streamingCup = streamingCup :=
  ⟨by rw [(onmessage_spec webcamRunning).1 cupAnswer (JVal.arr [cup]) rfl rfl],
    (onmessage_spec streamingCup).2 (some nullAnswer) (by
      intro data v hd hv
      cases hd
      cases hv
      rfl)⟩

/-- C9 (counterexample): the message `{"predictions": null}` is JSON with a
`predictions` field, yet after it the predictions state is the earlier
detection, not the field's value `null`. -/
theorem falsy_field_is_ignored :
    nullAnswer.getPredictions = some (some JVal.null)
      ∧ streamingCup.predictions = JVal.arr [cup]
      ∧ (step (Event.wsMessage 0 (some nullAnswer)) streamingCup).predictions = JVal.arr [cup]
      ∧ JVal.arr [cup] ≠ JVal.null :=
  ⟨rfl, rfl, rfl, by simp⟩

theorem isArray_of_step (e : Event) (s : State) (hs : s.predictions.isArray = true)
    (he : ∀ data field, e.payload = some data → data.getPredictions = some field →
      fieldListLike field = true) :
    (step e s).predictions.isArray = true := by
  rcases step_predictions e s with h | h | ⟨data, v, hp, hg, ht, hv⟩
  · rw [h]; exact hs
  · rw [h]; rfl
  · have := he data (some v) hp hg
    rw [hv]
    simpa [fieldListLike, ht] using this

/-- Where the predictions state does stay a list: starting from a list, it is
a list after every sequence of events in which each one-shot body and each channel message
that parses has a `predictions` value that is absent, falsy or an array
(whatever else the bodies are, and also when they do not parse or are `null`). -/
theorem predictions_stay_list (es : List Event) (s : State)
    (hs : s.predictions.isArray = true)
    (hes : ∀ e ∈ es, ∀ data field, e.payload = some data →
      data.getPredictions = some field → fieldListLike field = true) :
    (run es s).predictions.isArray = true := by
  induction es generalizing s with
  | nil => exact hs
  | cons e rest ih =>
    exact ih (step e s)
      (isArray_of_step e s hs (hes e (List.mem_cons_self _ _)))
      (fun e' h' => hes e' (List.mem_cons_of_mem _ h'))

theorem predictions_stay_list_witness :
    (run [Event.wsMessage 0 (some cupAnswer), Event.wsMessage 0 none,
          Event.wsMessage 0 (some nullAnswer)] webcamRunning).predictions.isArray = true :=
  predictions_stay_list _ webcamRunning rfl (by
    intro e he data field hp hg
    simp only [List.mem_cons, List.mem_singleton, List.not_mem_nil, or_false] at he
    rcases he with rfl | rfl | rfl
    · cases hp; cases hg; rfl
    · cases hp
    · cases hp; cases hg; rfl)

/-- C10 (the code at the failing input): the body `{"predictions": "x"}` makes
the predictions state the string `"x"`, which is not a list, through the
one-shot request and through the channel alike. -/
theorem text_field_is_stored :
    (init true).predictions.isArray = true
      ∧ (sendToBackend (FetchResult.body textAnswer) (init true)).predictions = JVal.str "x"
      ∧ (sendToBackend (FetchResult.body textAnswer) (init true)).predictions.isArray = false
      ∧ (run [Event.upload (some "blob:photo"), Event.clickPredict, Event.imageFetched true,
          Event.backendResponse (FetchResult.body textAnswer)] (init true)).predictions.isArray
          = false
      ∧ (step (Event.wsMessage 0 (some textAnswer)) webcamRunning).predictions = JVal.str "x" :=
  ⟨rfl, rfl, rfl, rfl, rfl⟩


end App
